import Mathlib

/-!
Verification development for the FiscalSpy ingestion-and-delivery core.

The repository ships the React dashboard (src/frontend) and the project
READMEs; the backend core (scheduler, SEFAZ protocol client, decoder,
document store, webhook dispatcher, credential vault) is described by the
design note and by the frontend code that calls it.  Definitions below are
translated from the frontend sources where they exist; components of the
backend core that are not in the tree are modelled from the design note,
and each such definition says so in its doc comment.
-/

namespace FiscalSpy

/-- Modelled from the spec: the billing status of a tenant.  The data model
fixes billing status to the four-element set {trial, active, overdue,
blocked}; the frontend renders these under the keys "trial", "ativo",
"inadimplente", "bloqueado". -/
inductive BillingStatus where
  | trial
  | active
  | overdue
  | blocked
deriving DecidableEq, Repr, Fintype

/-- Modelled from the spec: the billing events the Eligibility Gate consumes
from the payment provider intake (confirmed payment, trial expiry, missed
payment, payment recovery, subscription cancellation). -/
inductive BillingEvent where
  | paymentConfirmed
  | trialExpired
  | paymentMissed
  | paymentRecovered
  | subscriptionCancelled
deriving DecidableEq, Repr, Fintype

/-- Modelled from the spec: the Eligibility Gate state machine over
Tenant.status (section 4.5).  Transitions not listed leave the status
unchanged. -/
def gateTransition (s : BillingStatus) (e : BillingEvent) : BillingStatus :=
  match s, e with
  | .trial, .paymentConfirmed => .active
  | .trial, .trialExpired => .blocked
  | .active, .paymentMissed => .overdue
  | .overdue, .paymentRecovered => .active
  | .active, .subscriptionCancelled => .blocked
  | .overdue, .subscriptionCancelled => .blocked
  | s, _ => s

/-- Modelled from the spec: whether a billing status alone permits
scheduling; eligible statuses are trial, active and overdue, and blocked is
always ineligible. -/
def statusEligible : BillingStatus → Bool
  | .trial => true
  | .active => true
  | .overdue => true
  | .blocked => false

/-- Modelled from the spec: a stored CertificateRecord, reduced to the
fields the scheduling predicate consults (expiry date as a day number). -/
structure CertificateRecord where
  holder : String
  expiry : Nat
deriving DecidableEq, Repr

/-- Modelled from the spec: a tenant as seen by the scheduler: billing
status, optional certificate, sync cursor state. -/
structure Tenant where
  id : Nat
  status : BillingStatus
  cert : Option CertificateRecord
  cursor : Nat
  lastSync : Option Nat
deriving DecidableEq, Repr

/-- Modelled from the spec: a non-expired CertificateRecord exists for the
tenant.  An expired credential fails closed. -/
def certValid (now : Nat) (t : Tenant) : Bool :=
  match t.cert with
  | none => false
  | some c => now < c.expiry

/-- Modelled from the spec: the scheduling predicate (section 4.5): a tenant
is eligible iff its status is in {trial, active, overdue} and a non-expired
CertificateRecord exists. -/
def eligible (now : Nat) (t : Tenant) : Bool :=
  statusEligible t.status && certValid now t

/-- Modelled from the spec: each scheduler tick computes the eligible
tenants; ineligible tenants are never selected. -/
def selectTenants (now : Nat) (ts : List Tenant) : List Tenant :=
  ts.filter (eligible now)

/-- Modelled from the spec: eligibility is re-checked at every batch
boundary, so an in-flight sync stops before the next batch once the tenant
is no longer eligible.  `statusAt i` is the tenant billing status observed
at the boundary before batch `i`; the result counts the batches actually
processed, scanning from batch index `i`. -/
def batchesProcessedFrom (now : Nat) (statusAt : Nat → BillingStatus)
    (certOk : Bool) : List (List Nat) → Nat → Nat
  | [], _ => 0
  | _ :: bs, i =>
      if statusEligible (statusAt i) && certOk then
        1 + batchesProcessedFrom now statusAt certOk bs (i + 1)
      else 0

/-- Modelled from the spec: the outcome of one sync attempt as far as the
SyncCursor is concerned.  A pull may succeed with the service acknowledging
a new cursor, may fail after the service already acknowledged a cursor
(an attempt that fails partway), or may fail before any acknowledgment. -/
inductive AttemptOutcome where
  | success (ack : Nat)
  | failedAfterAck (ack : Nat)
  | failed
deriving DecidableEq, Repr

/-- Modelled from the spec: how one sync attempt updates the persisted
SyncCursor sequence number.  The cursor row is updated after every
successful pull with the acknowledged cursor, and the store never persists
a value below the one already recorded (the sequence number is monotonic);
an attempt that fails before any acknowledgment leaves the row untouched. -/
def persistCursor (cur : Nat) (r : AttemptOutcome) : Nat :=
  match r with
  | .success ack => max cur ack
  | .failedAfterAck ack => max cur ack
  | .failed => cur

/-- Modelled from the spec: the persisted cursor after a whole sequence of
sync attempts, applied in order. -/
def persistCursorAll (cur : Nat) (rs : List AttemptOutcome) : Nat :=
  rs.foldl persistCursor cur

/-- Modelled from the spec: the status of a fiscal document:
authorized, cancelled or denied. -/
inductive DocStatus where
  | authorized
  | cancelled
  | denied
deriving DecidableEq, Repr, Fintype

/-- Modelled from the spec: one structured document record as produced by
the Decoder/Parser: natural key (tenant id and 44-digit access key),
monetary total, issue date, and current status. -/
structure DocRecord where
  tenantId : Nat
  accessKey : String
  total : Nat
  issueDate : Nat
  status : DocStatus
deriving DecidableEq, Repr

/-- Modelled from the spec: one persisted FiscalDocument row: the natural
key, the immutable fields fixed at first insert, the current status, and
the append-only status history. -/
structure FiscalDocument where
  tenantId : Nat
  accessKey : String
  total : Nat
  issueDate : Nat
  status : DocStatus
  history : List DocStatus
deriving DecidableEq, Repr

/-- Modelled from the spec: the result of an idempotent upsert: a new row
was created, the status changed (old and new recorded for event emission),
or the delivery was an already-seen no-op. -/
inductive UpsertResult where
  | created
  | statusChanged (old new : DocStatus)
  | unchanged
deriving DecidableEq, Repr

/-- Modelled from the spec: the natural keys of two records coincide. -/
def sameKey (r : FiscalDocument) (d : DocRecord) : Bool :=
  r.tenantId == d.tenantId && r.accessKey == d.accessKey

/-- Modelled from the spec: the row first inserted for a record: immutable
fields fixed at first insert, history opened with the first status. -/
def insertRow (d : DocRecord) : FiscalDocument :=
  { tenantId := d.tenantId, accessKey := d.accessKey, total := d.total,
    issueDate := d.issueDate, status := d.status, history := [d.status] }

/-- Modelled from the spec: the Document Store's idempotent upsert keyed by
the natural key.  A duplicate delivery with unchanged status is a no-op; a
status change appends to history and keeps the immutable fields of the
first insert; an unseen key inserts a fresh row. -/
def upsert (store : List FiscalDocument) (d : DocRecord) :
    List FiscalDocument × UpsertResult :=
  match store with
  | [] => ([insertRow d], .created)
  | row :: rest =>
      if sameKey row d then
        if row.status == d.status then (row :: rest, .unchanged)
        else
          ({ row with status := d.status, history := row.history ++ [d.status] } :: rest,
            .statusChanged row.status d.status)
      else
        let (rest2, r) := upsert rest d
        (row :: rest2, r)

/-- Modelled from the spec: the five event-type identifiers of the webhook
envelope: document.new, document.cancelled, document.denied,
manifestation.sent, alert.triggered (rendered by the backend under the
keys documento.novo, documento.cancelado, documento.denegado,
manifestacao.enviada, alerta.disparado). -/
inductive EventType where
  | documentNew
  | documentCancelled
  | documentDenied
  | manifestationSent
  | alertTriggered
deriving DecidableEq, Repr, Fintype

/-- Modelled from the spec: the wire identifier of each event type. -/
def eventTypeName : EventType → String
  | .documentNew => "document.new"
  | .documentCancelled => "document.cancelled"
  | .documentDenied => "document.denied"
  | .manifestationSent => "manifestation.sent"
  | .alertTriggered => "alert.triggered"

/-- Modelled from the spec: one domain event emitted by the Document Store
for downstream dispatch: event type plus the natural key it concerns. -/
structure DomainEvent where
  eventType : EventType
  tenantId : Nat
  accessKey : String
deriving DecidableEq, Repr

/-- Modelled from the spec: the event type attached to a status, used when
the store reports a change to that status.  A document entering the store
or returning to authorized is announced as document.new; cancellation and
denial map to their own event types. -/
def statusEventType : DocStatus → EventType
  | .authorized => .documentNew
  | .cancelled => .documentCancelled
  | .denied => .documentDenied

/-- Modelled from the spec: events produced by one upsert: `created` and
`statusChanged` each produce exactly one domain event, `unchanged` produces
none. -/
def eventsOf (d : DocRecord) : UpsertResult → List DomainEvent
  | .created => [{ eventType := .documentNew, tenantId := d.tenantId, accessKey := d.accessKey }]
  | .statusChanged _ new =>
      [{ eventType := statusEventType new, tenantId := d.tenantId, accessKey := d.accessKey }]
  | .unchanged => []

/-- Modelled from the spec: persist one decoded batch: upsert each record in
order, collecting the emitted domain events. -/
def processDocs (store : List FiscalDocument) :
    List DocRecord → List FiscalDocument × List DomainEvent
  | [] => (store, [])
  | d :: ds =>
      let (store1, r) := upsert store d
      let (store2, evs) := processDocs store1 ds
      (store2, eventsOf d r ++ evs)

/-- Modelled from the spec: one protocol response item, already transport
decoded and decompressed, as handed to the structural parser: the natural
key fields and the parsed content.  The access key must be the 44-digit
document identifier; anything else is structurally malformed. -/
structure RawItem where
  tenantId : Nat
  accessKey : String
  total : Nat
  issueDate : Nat
  status : DocStatus
deriving DecidableEq, Repr

/-- Modelled from the spec: the Decoder/Parser: a raw item becomes a
structured document record, or is quarantined with a reason; a malformed
item never aborts the batch. -/
def decode (raw : RawItem) : Except String DocRecord :=
  if raw.accessKey.length == 44 && raw.accessKey.toList.all (fun c => c.isDigit) then
    .ok { tenantId := raw.tenantId, accessKey := raw.accessKey,
          total := raw.total, issueDate := raw.issueDate, status := raw.status }
  else
    .error "invalid access key"

/-- Modelled from the spec: decode a whole pulled batch, splitting it into
the well-formed records (in order) and the quarantine reasons of the
malformed items. -/
def decodeBatch : List RawItem → List DocRecord × List String
  | [] => ([], [])
  | i :: is =>
      let (ds, qs) := decodeBatch is
      match decode i with
      | .ok d => (d :: ds, qs)
      | .error r => (ds, r :: qs)

/-- Modelled from the spec: one pull response: zero or more encoded items
plus the service acknowledgment of the new cursor. -/
structure PullBatch where
  items : List RawItem
  ack : Nat
deriving DecidableEq, Repr

/-- Modelled from the spec: the outcome of applying one pulled batch to a
tenant: the persisted cursor, the document store, the quarantine reasons
and the domain events emitted for dispatch. -/
structure BatchResult where
  cursor : Nat
  store : List FiscalDocument
  quarantined : List String
  events : List DomainEvent
deriving DecidableEq, Repr

/-- Modelled from the spec: apply one pulled batch: decode every item
(quarantining the malformed ones), upsert the well-formed records, persist
the acknowledged cursor. -/
def applyBatch (cursor : Nat) (store : List FiscalDocument) (b : PullBatch) :
    BatchResult :=
  let (ds, qs) := decodeBatch b.items
  let (store2, evs) := processDocs store ds
  { cursor := persistCursor cursor (.success b.ack), store := store2,
    quarantined := qs, events := evs }

/-- Modelled from the spec: a tenant-registered webhook endpoint: target
URL and shared signing secret (secret as bytes). -/
structure WebhookEndpoint where
  tenantId : Nat
  url : String
  secret : List Nat
deriving DecidableEq, Repr

/-- Modelled from the spec: status of a WebhookDelivery: pending,
delivered, failed or dead; terminal states are delivered and dead. -/
inductive DeliveryStatus where
  | pending
  | delivered
  | failed
  | dead
deriving DecidableEq, Repr, Fintype

/-- Modelled from the spec: one durable WebhookDelivery row: endpoint,
event type, serialized payload, attempt count, status and next-attempt
timestamp. -/
structure WebhookDelivery where
  id : Nat
  endpointId : Nat
  eventType : EventType
  payload : String
  attempts : Nat
  status : DeliveryStatus
  nextAttempt : Nat
deriving DecidableEq, Repr

/-- Modelled from the spec: enqueue creates a pending delivery with zero
attempts, due immediately. -/
def enqueue (nextId : Nat) (ep : WebhookEndpoint) (ev : DomainEvent)
    (payload : String) (now : Nat) : WebhookDelivery :=
  { id := nextId, endpointId := ep.tenantId, eventType := ev.eventType,
    payload := payload, attempts := 0, status := .pending, nextAttempt := now }

/-- Modelled from the spec: enqueue one pending delivery per emitted domain
event, with consecutive identifiers. -/
def enqueueAll (ep : WebhookEndpoint) (startId now : Nat) :
    List DomainEvent → List WebhookDelivery
  | [] => []
  | ev :: evs =>
      enqueue startId ep ev (eventTypeName ev.eventType ++ ":" ++ ev.accessKey) now
        :: enqueueAll ep (startId + 1) now evs

/-- Modelled from the spec: one byte-mixing step of the keyed digest used
to model the HMAC-SHA256 signature; the real dispatcher computes a keyed
hash of the exact payload bytes with the endpoint secret. -/
def mixByte (h b : Nat) : Nat :=
  (h * 131 + b + 1) % 256

/-- Modelled from the spec: fold the keyed-digest mixing over a byte list
from a seed. -/
def digestWith (seed : Nat) (bytes : List Nat) : Nat :=
  bytes.foldl mixByte seed

/-- Modelled from the spec: the keyed hash of the payload bytes under the
endpoint secret, as a 32-byte digest (a deterministic model of
HMAC-SHA256: the secret is mixed in before and after the message). -/
def keyedDigest (secret msg : List Nat) : List Nat :=
  (List.range 32).map (fun i => digestWith i (secret ++ [54] ++ msg ++ [92] ++ secret))

/-- Modelled from the spec: the sixteen lowercase hexadecimal digits. -/
def hexChars : List Char :=
  (List.range 16).map Nat.digitChar

/-- Modelled from the spec: the hexadecimal digit of a value below 16. -/
def hexDigit (n : Nat) : Char :=
  Nat.digitChar n

/-- Modelled from the spec: two hexadecimal digits of one byte. -/
def hexByte (b : Nat) : List Char :=
  [hexDigit (b / 16), hexDigit (b % 16)]

/-- Modelled from the spec: lowercase hexadecimal encoding of a byte
list. -/
def hexString (bs : List Nat) : String :=
  String.mk (bs.map hexByte).flatten

/-- Modelled from the spec: the bytes of a payload string. -/
def payloadBytes (s : String) : List Nat :=
  s.toList.map Char.toNat

/-- Modelled from the spec: the signature header value the dispatcher
sends: `sha256=` followed by the hex-encoded keyed hash of the exact
payload bytes under the endpoint secret. -/
def signPayload (secret : List Nat) (body : String) : String :=
  "sha256=" ++ hexString (keyedDigest secret (payloadBytes body))

/-- Modelled from the spec: one outbound webhook HTTP request: method,
the signature, event-type and delivery-identifier headers, and the
serialized event payload as body. -/
structure HttpRequest where
  method : String
  signatureHeader : String
  eventHeader : String
  deliveryHeader : String
  body : String
deriving DecidableEq, Repr

/-- Modelled from the spec: build the outbound request for one delivery:
an HTTP POST whose headers carry the signature over the raw body, the
event-type identifier and the delivery identifier, and whose body is the
serialized payload. -/
def buildRequest (ep : WebhookEndpoint) (d : WebhookDelivery) : HttpRequest :=
  { method := "POST",
    signatureHeader := signPayload ep.secret d.payload,
    eventHeader := eventTypeName d.eventType,
    deliveryHeader := toString d.id,
    body := d.payload }

/-- Modelled from the spec: what a receiver recomputes: the keyed hash over
the request body as received, using the shared secret. -/
def receiverRecompute (secret : List Nat) (req : HttpRequest) : String :=
  signPayload secret req.body

/-- Modelled from the spec: the configured backoff ladder, in seconds:
1m, 5m, 30m, 2h, 12h. -/
def backoffLadder : List Nat :=
  [60, 300, 1800, 7200, 43200]

/-- Modelled from the spec: a delivery is due when it is pending or failed
and its next-attempt timestamp has passed; delivered and dead deliveries
are never due. -/
def isDue (now : Nat) (d : WebhookDelivery) : Bool :=
  (d.status == .pending || d.status == .failed) && Nat.ble d.nextAttempt now

/-- Modelled from the spec: a non-2xx outcome increments the attempt count
and reschedules per the backoff ladder; once as many attempts as the ladder
has rungs were made, the delivery becomes dead. -/
def recordFailure (now : Nat) (d : WebhookDelivery) : WebhookDelivery :=
  let a := d.attempts + 1
  if a < backoffLadder.length then
    { d with
      attempts := a,
      status := .failed,
      nextAttempt := now + backoffLadder.getD (a - 1) 0 }
  else
    { d with attempts := a, status := .dead }

/-- Modelled from the spec: one worker pass over one delivery: if due, send
and interpret a 2xx as delivered, anything else per `recordFailure`; if not
due, leave the delivery untouched. -/
def deliverOnce (now : Nat) (ok : Bool) (d : WebhookDelivery) : WebhookDelivery :=
  if isDue now d then
    if ok then { d with status := .delivered } else recordFailure now d
  else d

/-- Modelled from the spec: run `n` worker passes against an endpoint that
never returns 2xx, each pass at the delivery's own due time. -/
def failWorker : Nat → WebhookDelivery → WebhookDelivery
  | 0, d => d
  | n + 1, d => failWorker n (deliverOnce d.nextAttempt false d)

/-- Modelled from the spec: one dispatched sync task for one tenant. -/
structure SyncTask where
  tenantId : Nat
deriving DecidableEq, Repr

/-- Modelled from the spec: the per-tenant scheduler pass: run the tenant
only if the eligibility gate admits it and no per-tenant lease is held;
otherwise skip. -/
def tenantPass (now : Nat) (leases : List Nat) (t : Tenant) : Option SyncTask :=
  if eligible now t && !(leases.contains t.id) then some { tenantId := t.id }
  else none

/-- Modelled from the spec: one scheduler tick: one sync task per eligible,
unleased tenant, bounded by the global concurrency limit. -/
def schedulerTick (limit now : Nat) (leases : List Nat) (ts : List Tenant) :
    List SyncTask :=
  (ts.filterMap (tenantPass now leases)).take limit

/-- Translated from src/unnamed/part_000 (the SefazStatus interface the
dashboard consumes): current cursor (ultimo_nsu), last-sync timestamp,
worker status, certificate-configured flag. -/
structure SefazStatus where
  ultimo_nsu : Nat
  ultima_sincronizacao : Option Nat
  status_worker : String
  certificado_configurado : Bool
deriving DecidableEq, Repr

/-- Modelled from the spec: the collaborator-facing status read: exposes
the tenant's current cursor, last-sync timestamp and whether a certificate
is configured. -/
def readStatus (t : Tenant) : SefazStatus :=
  { ultimo_nsu := t.cursor, ultima_sincronizacao := t.lastSync,
    status_worker := "running", certificado_configurado := t.cert.isSome }

/-- Modelled from the spec: the manual sync-now trigger: an out-of-band
scheduler pass for one tenant, subject to the same eligibility gate and
per-tenant lease as the periodic scheduler. -/
def syncNow (now : Nat) (leases : List Nat) (t : Tenant) : Option SyncTask :=
  tenantPass now leases t

/-- Translated from src/unnamed/part_002: the sidebar badge colors keyed by
company status. -/
def statusColors : List (String × String) :=
  [("trial", "bg-yellow-500"), ("ativo", "bg-brand-500"),
   ("bloqueado", "bg-red-500"), ("inadimplente", "bg-red-500")]

/-- Translated from src/frontend/src/pages/Perfil.tsx: the profile page's
status labels and colors keyed by company status. -/
def statusLabel : List (String × String × String) :=
  [("trial", "Trial ativo", "text-yellow-400"), ("ativo", "Ativo", "text-brand-400"),
   ("bloqueado", "Bloqueado", "text-red-400"),
   ("inadimplente", "Inadimplente", "text-red-400")]

/-- Modelled from the spec: the backend key under which each billing status
is surfaced to the frontend. -/
def statusKey : BillingStatus → String
  | .trial => "trial"
  | .active => "ativo"
  | .overdue => "inadimplente"
  | .blocked => "bloqueado"

/-- Modelled from the spec: the four billing statuses. -/
def allStatuses : List BillingStatus :=
  [.trial, .active, .overdue, .blocked]

/-- Translated from src/frontend/src/services/api.ts: the persisted auth
state kept under the fiscalspy-auth storage key (the fields the
interceptors read). -/
structure AuthTokens where
  accessToken : Option String
  refreshToken : Option String
deriving DecidableEq, Repr

/-- Translated from src/frontend/src/services/api.ts: the browser-side
state the response interceptor can touch: the persisted auth storage item
and the window location. -/
structure ClientState where
  storage : Option AuthTokens
  location : String
deriving DecidableEq, Repr

/-- Translated from src/frontend/src/services/api.ts: the request config of
the failed request: its auth header and the retry marker the interceptor
sets before replaying (original._retry in the source). -/
structure ReqConfig where
  url : String
  authHeader : Option String
  retryFlag : Bool
deriving DecidableEq, Repr

/-- Translated from src/frontend/src/services/api.ts: the error object the
response interceptor receives: the HTTP status of the response, if any, and
the original request config. -/
structure AxiosError where
  status : Option Nat
  config : ReqConfig
deriving DecidableEq, Repr

/-- Translated from src/frontend/src/services/api.ts: the outcome of the
POST to /api/auth/refresh made with the stored refresh token. -/
inductive RefreshResult where
  | ok (access refresh : String)
  | err
deriving DecidableEq, Repr

/-- Translated from src/frontend/src/services/api.ts: what the interceptor
returns: replay the (marked) original request through the client, or reject
the error to the caller unchanged. -/
inductive InterceptOutcome where
  | replay (c : ReqConfig)
  | rejected (e : AxiosError)
deriving DecidableEq, Repr

/-- Translated from src/frontend/src/services/api.ts, the response error
interceptor: on a 401 whose config is not yet marked, mark it, and if the
storage holds a refresh token, attempt a refresh; on success update the
storage and replay the original request with the new bearer token; if the
refresh throws, remove the storage and navigate to /login, then reject; on
every other path reject the error unchanged. -/
def responseInterceptor (st : ClientState) (e : AxiosError)
    (refresh : RefreshResult) : ClientState × InterceptOutcome :=
  if e.status == some 401 && !e.config.retryFlag then
    let c := { e.config with retryFlag := true }
    match st.storage with
    | some tokens =>
        match tokens.refreshToken with
        | some _ =>
            match refresh with
            | .ok a r =>
                ({ st with storage := some { accessToken := some a, refreshToken := some r } },
                  .replay { c with authHeader := some ("Bearer " ++ a) })
            | .err =>
                ({ storage := none, location := "/login" }, .rejected e)
        | none => (st, .rejected e)
    | none => (st, .rejected e)
  else (st, .rejected e)

/-- Modelled from the spec: the natural key of a record: tenant id and
44-digit access key. -/
def natKey (d : DocRecord) : Nat × String :=
  (d.tenantId, d.accessKey)

/-- Modelled from the spec: the row of the store holding the record's
natural key, if any. -/
def lookupKey (store : List FiscalDocument) (d : DocRecord) : Option FiscalDocument :=
  store.find? (fun r => sameKey r d)

/-- Modelled from the spec: the store already holds the record's natural
key with the record's current status. -/
def hasCurrent (store : List FiscalDocument) (d : DocRecord) : Bool :=
  match lookupKey store d with
  | some r => r.status == d.status
  | none => false

/-- One sync attempt never lowers the persisted cursor. -/
theorem persistCursor_le (cur : Nat) (r : AttemptOutcome) :
    cur ≤ persistCursor cur r := by
  cases r <;> simp [persistCursor]

/-- C1: for every tenant and every sequence of sync attempts, including
attempts that fail partway, the persisted SyncCursor sequence number after
each attempt is at least its value before the attempt, so the persisted
cursor never decreases across any sequence of attempts. -/
theorem cursor_never_decreases :
    (∀ cur r, cur ≤ persistCursor cur r) ∧
    (∀ cur rs r, persistCursorAll cur rs ≤ persistCursorAll cur (rs ++ [r])) ∧
    (∀ cur rs, cur ≤ persistCursorAll cur rs) := by
  refine ⟨persistCursor_le, ?_, ?_⟩
  · intro cur rs r
    simp only [persistCursorAll, List.foldl_append, List.foldl_cons, List.foldl_nil]
    exact persistCursor_le _ r
  · intro cur rs
    induction rs generalizing cur with
    | nil => simp [persistCursorAll]
    | cons r rs ih =>
        simp only [persistCursorAll, List.foldl_cons] at *
        exact le_trans (persistCursor_le cur r) (ih _)

/-- C3: a tenant whose billing status is blocked is never selected by the
scheduler, even with a valid certificate and a stale cursor, and an
in-flight sync for a tenant that becomes blocked at boundary k processes at
most the first k batches (it stops at the next batch boundary). -/
theorem blocked_never_scheduled :
    (∀ (now : Nat) (t : Tenant), t.status = .blocked → eligible now t = false) ∧
    (∀ (now : Nat) (ts : List Tenant) (t : Tenant), t.status = .blocked →
      t ∉ selectTenants now ts) ∧
    (∀ (now : Nat) (statusAt : Nat → BillingStatus) (certOk : Bool)
      (bs : List (List Nat)) (k : Nat), statusAt k = .blocked →
      batchesProcessedFrom now statusAt certOk bs 0 ≤ k) := by
  have hel : ∀ (now : Nat) (t : Tenant), t.status = .blocked → eligible now t = false := by
    intro now t h
    simp [eligible, h, statusEligible]
  refine ⟨hel, ?_, ?_⟩
  · intro now ts t h hmem
    have := List.of_mem_filter hmem
    rw [hel now t h] at this
    exact Bool.false_ne_true this
  · intro now statusAt certOk bs k hk
    have aux : ∀ (bs : List (List Nat)) (i : Nat), i ≤ k →
        batchesProcessedFrom now statusAt certOk bs i ≤ k - i := by
      intro bs
      induction bs with
      | nil => intro i _; simp [batchesProcessedFrom]
      | cons b bs ih =>
          intro i hik
          by_cases hc : (statusEligible (statusAt i) && certOk) = true
          · have hne : statusAt i ≠ .blocked := by
              intro he
              rw [he] at hc
              simp [statusEligible] at hc
            have hik2 : i < k := by
              rcases Nat.lt_or_ge i k with h1 | h1
              · exact h1
              · exact absurd (by rw [Nat.le_antisymm hik h1]; exact hk) hne
            have := ih (i + 1) hik2
            simp only [batchesProcessedFrom, hc, if_true]
            omega
          · simp [batchesProcessedFrom, hc]
    have := aux bs 0 (Nat.zero_le k)
    omega

/-- Witness for the blocked-tenant theorem at a concrete tenant holding a
valid certificate and a stale cursor, and a run that becomes blocked at
boundary 1. -/
theorem blocked_never_scheduled_witness :
    eligible 10 { id := 7, status := .blocked, cert := some { holder := "ACME", expiry := 100 }, cursor := 0, lastSync := none } = false ∧
    ({ id := 7, status := .blocked, cert := some { holder := "ACME", expiry := 100 }, cursor := 0, lastSync := none } : Tenant) ∉
      selectTenants 10
        [{ id := 7, status := .blocked, cert := some { holder := "ACME", expiry := 100 }, cursor := 0, lastSync := none }] ∧
    batchesProcessedFrom 10
      (fun i => if i = 0 then .active else .blocked) true [[1], [2], [3]] 0 ≤ 1 := by
  refine ⟨?_, ?_, ?_⟩
  · exact blocked_never_scheduled.1 10 _ rfl
  · exact blocked_never_scheduled.2.1 10 _ _ rfl
  · exact blocked_never_scheduled.2.2 10 _ true _ 1 rfl

/-- C8: a tenant's billing status is always one of exactly the four values
trial, active, overdue, blocked; every Eligibility Gate transition reads
and writes only values from this four-element set; and the frontend status
maps (statusColors, statusLabel) are keyed by exactly the images of these
four values. -/
theorem billing_status_four_values :
    (∀ s : BillingStatus, s ∈ allStatuses) ∧
    (∀ (s : BillingStatus) (e : BillingEvent), gateTransition s e ∈ allStatuses) ∧
    (statusColors.map Prod.fst).Perm (allStatuses.map statusKey) ∧
    (statusLabel.map Prod.fst).Perm (allStatuses.map statusKey) ∧
    (∀ s : BillingStatus, statusKey s ∈ statusColors.map Prod.fst) ∧
    (∀ k, k ∈ statusColors.map Prod.fst → ∃ s, statusKey s = k) := by
  refine ⟨by decide, by decide, by decide, by decide, by decide, ?_⟩
  intro k hk
  simp [statusColors] at hk
  rcases hk with h | h | h | h
  · exact ⟨.trial, by simp [statusKey, h]⟩
  · exact ⟨.active, by simp [statusKey, h]⟩
  · exact ⟨.blocked, by simp [statusKey, h]⟩
  · exact ⟨.overdue, by simp [statusKey, h]⟩

/-- Witness for the four-value billing status theorem at a concrete key. -/
theorem billing_status_four_values_witness :
    ∃ s, statusKey s = "ativo" := by
  exact billing_status_four_values.2.2.2.2.2 "ativo" (by decide)

/-- C9: the status read returns the tenant's current cursor, last-sync
timestamp and certificate-configured flag, and the manual sync-now trigger
is exactly one per-tenant scheduler pass, subject to the same eligibility
gate and per-tenant lease as the periodic scheduler (it yields no task for
an ineligible or leased tenant, and a tick over a single tenant dispatches
exactly what sync-now does). -/
theorem status_read_and_sync_now :
    (∀ t : Tenant, (readStatus t).ultimo_nsu = t.cursor ∧
      (readStatus t).ultima_sincronizacao = t.lastSync ∧
      (readStatus t).certificado_configurado = t.cert.isSome) ∧
    (∀ (now : Nat) (leases : List Nat) (t : Tenant),
      syncNow now leases t = tenantPass now leases t) ∧
    (∀ (now : Nat) (leases : List Nat) (t : Tenant), eligible now t = false →
      syncNow now leases t = none) ∧
    (∀ (now : Nat) (leases : List Nat) (t : Tenant), leases.contains t.id = true →
      syncNow now leases t = none) ∧
    (∀ (now : Nat) (leases : List Nat) (t : Tenant),
      schedulerTick 1 now leases [t] = (syncNow now leases t).toList) := by
  refine ⟨?_, ?_, ?_, ?_, ?_⟩
  · intro t; exact ⟨rfl, rfl, rfl⟩
  · intro now leases t; rfl
  · intro now leases t h
    simp [syncNow, tenantPass, h]
  · intro now leases t h
    have hm : t.id ∈ leases := by simpa using h
    simp [syncNow, tenantPass, h, hm]
  · intro now leases t
    cases h : syncNow now leases t with
    | none => simp [schedulerTick, syncNow] at h ⊢; simp [h]
    | some task => simp [schedulerTick, syncNow] at h ⊢; simp [h]

/-- Witness for the status-read and sync-now theorem at a concrete blocked
tenant and a concrete leased tenant. -/
theorem status_read_and_sync_now_witness :
    syncNow 10 [] { id := 7, status := .blocked, cert := some { holder := "ACME", expiry := 100 }, cursor := 0, lastSync := none } = none ∧
    syncNow 10 [3] { id := 3, status := .active, cert := some { holder := "ACME", expiry := 100 }, cursor := 0, lastSync := none } = none := by
  constructor
  · exact status_read_and_sync_now.2.2.1 10 [] _ (by decide)
  · exact status_read_and_sync_now.2.2.2.1 10 [3] _ (by decide)

/-- C5: the dispatcher's signature is a deterministic keyed hash over the
exact payload bytes, so a receiver recomputing the keyed hash over the
unmodified body of the outbound request with the shared secret obtains the
very signature value the dispatcher sent. -/
theorem signature_recompute_identical :
    ∀ (ep : WebhookEndpoint) (d : WebhookDelivery),
      receiverRecompute ep.secret (buildRequest ep d) =
        (buildRequest ep d).signatureHeader ∧
      (buildRequest ep d).signatureHeader = signPayload ep.secret d.payload := by
  intro ep d
  exact ⟨rfl, rfl⟩

/-- One digest byte stays below 256 whenever the seed does. -/
theorem digestWith_lt (bytes : List Nat) :
    ∀ seed, seed < 256 → digestWith seed bytes < 256 := by
  induction bytes with
  | nil => intro seed h; simpa [digestWith] using h
  | cons b bs ih =>
      intro seed _
      have hm : mixByte seed b < 256 := Nat.mod_lt _ (by decide)
      simpa [digestWith, List.foldl_cons] using ih (mixByte seed b) hm

/-- Every byte of the keyed digest is below 256. -/
theorem keyedDigest_lt (secret msg : List Nat) :
    ∀ b ∈ keyedDigest secret msg, b < 256 := by
  intro b hb
  simp [keyedDigest] at hb
  obtain ⟨i, hi, rfl⟩ := hb
  exact digestWith_lt _ i (lt_trans hi (by decide))

/-- The hexadecimal digit of a value below 16 is a hexadecimal character. -/
theorem hexDigit_mem : ∀ n, n < 16 → hexDigit n ∈ hexChars := by
  decide

/-- Both characters of a byte's hexadecimal rendering are hexadecimal
characters. -/
theorem hexByte_mem (b : Nat) (hb : b < 256) :
    ∀ c ∈ hexByte b, c ∈ hexChars := by
  intro c hc
  simp [hexByte] at hc
  rcases hc with h | h
  · subst h
    exact hexDigit_mem _ (Nat.div_lt_of_lt_mul (by omega))
  · subst h
    exact hexDigit_mem _ (Nat.mod_lt _ (by decide))

/-- Every character of the hexadecimal rendering of a byte list is a
hexadecimal character. -/
theorem hexString_mem (bs : List Nat) (hbs : ∀ b ∈ bs, b < 256) :
    ∀ c ∈ (hexString bs).toList, c ∈ hexChars := by
  intro c hc
  simp [hexString, String.toList] at hc
  obtain ⟨b, hb, hcb⟩ := hc
  exact hexByte_mem b (hbs b hb) c hcb

/-- C7: every outbound webhook request is an HTTP POST whose headers carry
a signature of the form sha256=(hex digits), the delivery identifier and an
event-type identifier drawn from exactly the five documented values, with
the serialized event payload as the body. -/
theorem webhook_envelope :
    ∀ (ep : WebhookEndpoint) (d : WebhookDelivery),
      (buildRequest ep d).method = "POST" ∧
      (buildRequest ep d).body = d.payload ∧
      (buildRequest ep d).deliveryHeader = toString d.id ∧
      (buildRequest ep d).eventHeader ∈
        ["document.new", "document.cancelled", "document.denied",
         "manifestation.sent", "alert.triggered"] ∧
      ∃ hex, (buildRequest ep d).signatureHeader = "sha256=" ++ hex ∧
        ∀ c ∈ hex.toList, c ∈ hexChars := by
  intro ep d
  refine ⟨rfl, rfl, rfl, ?_, ?_⟩
  · cases h : d.eventType <;> simp [buildRequest, eventTypeName, h]
  · refine ⟨hexString (keyedDigest ep.secret (payloadBytes d.payload)), rfl, ?_⟩
    exact hexString_mem _ (keyedDigest_lt _ _)

/-- A dead delivery is never popped again: any number of further worker
passes leaves it untouched. -/
theorem failWorker_dead (m : Nat) :
    ∀ d : WebhookDelivery, d.status = .dead → failWorker m d = d := by
  induction m with
  | zero => intro d _; rfl
  | succ n ih =>
      intro d h
      have hdue : isDue d.nextAttempt d = false := by
        simp [isDue, h]
      simp [failWorker, deliverOnce, hdue, ih d h]

/-- C4: a delivery that never receives a 2xx response makes exactly as many
attempts as the backoff ladder has rungs, then reaches dead, is never due
again, and no further worker pass ever touches it. -/
theorem delivery_exhausts_ladder_then_dead (d : WebhookDelivery)
    (hs : d.status = .pending) (ha : d.attempts = 0) :
    (failWorker backoffLadder.length d).status = .dead ∧
    (failWorker backoffLadder.length d).attempts = backoffLadder.length ∧
    (∀ now, isDue now (failWorker backoffLadder.length d) = false) ∧
    (∀ m, failWorker m (failWorker backoffLadder.length d) =
      failWorker backoffLadder.length d) := by
  obtain ⟨i, ep, ev, pl, a, s, na⟩ := d
  simp only at hs ha
  subst hs ha
  have hrun : failWorker backoffLadder.length
      ({ id := i, endpointId := ep, eventType := ev, payload := pl, attempts := 0, status := .pending, nextAttempt := na } : WebhookDelivery) =
      { id := i, endpointId := ep, eventType := ev, payload := pl, attempts := 5, status := .dead, nextAttempt := na + 9360 } := by
    simp [backoffLadder, failWorker, deliverOnce, isDue, recordFailure, Nat.ble_self_eq_true]
  rw [hrun]
  refine ⟨rfl, rfl, ?_, ?_⟩
  · intro now; simp [isDue]
  · intro m; exact failWorker_dead m _ rfl

/-- Witness for the ladder-exhaustion theorem at a concrete pending
delivery. -/
theorem delivery_exhausts_ladder_then_dead_witness :
    (failWorker backoffLadder.length { id := 1, endpointId := 2, eventType := .documentNew, payload := "p", attempts := 0, status := .pending, nextAttempt := 0 }).status = DeliveryStatus.dead := by
  exact (delivery_exhausts_ladder_then_dead _ rfl rfl).1

/-- Decoding a batch quarantines exactly the malformed items and keeps
exactly the well-formed ones, in order. -/
theorem decodeBatch_split (items : List RawItem) :
    decodeBatch items =
      (items.filterMap (fun i => (decode i).toOption),
       items.filterMap (fun i =>
         match decode i with
         | .ok _ => none
         | .error r => some r)) := by
  induction items with
  | nil => rfl
  | cons i is ih =>
      cases h : decode i with
      | ok d => simp [decodeBatch, ih, h, Except.toOption]
      | error r => simp [decodeBatch, ih, h, Except.toOption]

/-- C6: a malformed item is quarantined with a reason and excluded while
every remaining well-formed item is still decoded and persisted, and in
the concrete scenario (cursor 100, three pulled items of which one is
malformed, service acknowledgment 105) the result is cursor 105, two
FiscalDocuments created, one quarantined item, and two document.new
webhook deliveries enqueued. -/
theorem malformed_item_quarantined :
    (∀ items : List RawItem, decodeBatch items =
      (items.filterMap (fun i => (decode i).toOption),
       items.filterMap (fun i =>
         match decode i with
         | .ok _ => none
         | .error r => some r))) ∧
    applyBatch 100 []
      { items :=
          [{ tenantId := 1, accessKey := "11111111111111111111111111111111111111111111", total := 100, issueDate := 20240101, status := .authorized },
           { tenantId := 1, accessKey := "XYZ", total := 5, issueDate := 20240101, status := .authorized },
           { tenantId := 1, accessKey := "22222222222222222222222222222222222222222222", total := 200, issueDate := 20240102, status := .authorized }],
        ack := 105 } =
      { cursor := 105,
        store :=
          [{ tenantId := 1, accessKey := "11111111111111111111111111111111111111111111", total := 100, issueDate := 20240101, status := .authorized, history := [.authorized] },
           { tenantId := 1, accessKey := "22222222222222222222222222222222222222222222", total := 200, issueDate := 20240102, status := .authorized, history := [.authorized] }],
        quarantined := ["invalid access key"],
        events :=
          [{ eventType := .documentNew, tenantId := 1, accessKey := "11111111111111111111111111111111111111111111" },
           { eventType := .documentNew, tenantId := 1, accessKey := "22222222222222222222222222222222222222222222" }] } ∧
    enqueueAll { tenantId := 1, url := "https://client.example/webhook", secret := [1, 2, 3] } 0 0
      [{ eventType := .documentNew, tenantId := 1, accessKey := "11111111111111111111111111111111111111111111" },
       { eventType := .documentNew, tenantId := 1, accessKey := "22222222222222222222222222222222222222222222" }] =
      [{ id := 0, endpointId := 1, eventType := .documentNew, payload := "document.new:11111111111111111111111111111111111111111111", attempts := 0, status := .pending, nextAttempt := 0 },
       { id := 1, endpointId := 1, eventType := .documentNew, payload := "document.new:22222222222222222222222222222222222222222222", attempts := 0, status := .pending, nextAttempt := 0 }] := by
  refine ⟨decodeBatch_split, ?_, ?_⟩
  · rfl
  · rfl

/-- C10: a 401 triggers at most one token-refresh-and-replay: a non-401
error or an already-marked request is rejected to the caller unchanged with
no state change; on a 401 with a stored refresh token, a successful refresh
rotates the stored tokens and replays the original request marked with the
retry flag and the new bearer token; a failed refresh removes the persisted
auth state and navigates to /login before rejecting; and any replayed
request carries the retry flag, so a 401 on it is rejected rather than
retried again. -/
theorem api_401_refresh_once :
    (∀ (st : ClientState) (e : AxiosError) (refresh : RefreshResult),
      e.status ≠ some 401 →
      responseInterceptor st e refresh = (st, .rejected e)) ∧
    (∀ (st : ClientState) (e : AxiosError) (refresh : RefreshResult),
      e.config.retryFlag = true →
      responseInterceptor st e refresh = (st, .rejected e)) ∧
    (∀ (st : ClientState) (e : AxiosError) (tokens : AuthTokens) (rt a r : String),
      e.status = some 401 → e.config.retryFlag = false →
      st.storage = some tokens → tokens.refreshToken = some rt →
      responseInterceptor st e (.ok a r) =
        ({ st with storage := some { accessToken := some a, refreshToken := some r } },
          .replay { url := e.config.url, authHeader := some ("Bearer " ++ a), retryFlag := true })) ∧
    (∀ (st : ClientState) (e : AxiosError) (tokens : AuthTokens) (rt : String),
      e.status = some 401 → e.config.retryFlag = false →
      st.storage = some tokens → tokens.refreshToken = some rt →
      responseInterceptor st e .err =
        ({ storage := none, location := "/login" }, .rejected e)) ∧
    (∀ (st st2 : ClientState) (e : AxiosError) (refresh : RefreshResult) (c : ReqConfig),
      responseInterceptor st e refresh = (st2, .replay c) →
      c.retryFlag = true) := by
  refine ⟨?_, ?_, ?_, ?_, ?_⟩
  · intro st e refresh h
    have hb : (e.status == some 401) = false := by
      simpa using h
    simp [responseInterceptor, hb]
  · intro st e refresh h
    simp [responseInterceptor, h]
  · intro st e tokens rt a r h1 h2 h3 h4
    simp [responseInterceptor, h1, h2, h3, h4]
  · intro st e tokens rt h1 h2 h3 h4
    simp [responseInterceptor, h1, h2, h3, h4]
  · intro st st2 e refresh c h
    by_cases hc : (e.status == some 401 && !e.config.retryFlag) = true
    · cases hst : st.storage with
      | none => simp [responseInterceptor, hc, hst] at h
      | some tokens =>
          cases hrt : tokens.refreshToken with
          | none => simp [responseInterceptor, hc, hst, hrt] at h
          | some rt =>
              cases refresh with
              | ok a r =>
                  simp [responseInterceptor, hc, hst, hrt] at h
                  rw [← h.2]
              | err => simp [responseInterceptor, hc, hst, hrt] at h
    · simp [responseInterceptor, hc] at h

/-- Witness for the 401 interceptor theorem: each clause applied at a
concrete client state and error. -/
theorem api_401_refresh_once_witness :
    responseInterceptor { storage := none, location := "/" } { status := some 500, config := { url := "/x", authHeader := none, retryFlag := false } } .err = ({ storage := none, location := "/" }, .rejected { status := some 500, config := { url := "/x", authHeader := none, retryFlag := false } }) ∧
    responseInterceptor { storage := none, location := "/" } { status := some 401, config := { url := "/x", authHeader := none, retryFlag := true } } .err = ({ storage := none, location := "/" }, .rejected { status := some 401, config := { url := "/x", authHeader := none, retryFlag := true } }) ∧
    responseInterceptor { storage := some { accessToken := some "old", refreshToken := some "rt" }, location := "/" } { status := some 401, config := { url := "/x", authHeader := none, retryFlag := false } } (.ok "a2" "r2") = ({ storage := some { accessToken := some "a2", refreshToken := some "r2" }, location := "/" }, .replay { url := "/x", authHeader := some "Bearer a2", retryFlag := true }) ∧
    responseInterceptor { storage := some { accessToken := some "old", refreshToken := some "rt" }, location := "/" } { status := some 401, config := { url := "/x", authHeader := none, retryFlag := false } } .err = ({ storage := none, location := "/login" }, .rejected { status := some 401, config := { url := "/x", authHeader := none, retryFlag := false } }) := by
  refine ⟨?_, ?_, ?_, ?_⟩
  · exact api_401_refresh_once.1 _ _ _ (by decide)
  · exact api_401_refresh_once.2.1 _ _ _ rfl
  · exact api_401_refresh_once.2.2.1 _ _ { accessToken := some "old", refreshToken := some "rt" } "rt" "a2" "r2" rfl rfl rfl rfl
  · exact api_401_refresh_once.2.2.2.1 _ _ { accessToken := some "old", refreshToken := some "rt" } "rt" rfl rfl rfl rfl

/-- The key comparison unfolded to propositional equalities. -/
theorem sameKey_iff (r : FiscalDocument) (d : DocRecord) :
    sameKey r d = true ↔ (r.tenantId = d.tenantId ∧ r.accessKey = d.accessKey) := by
  simp [sameKey]

/-- Natural keys coincide iff their components do. -/
theorem natKey_eq_iff (d d' : DocRecord) :
    natKey d = natKey d' ↔ (d.tenantId = d'.tenantId ∧ d.accessKey = d'.accessKey) := by
  simp [natKey, Prod.ext_iff]

/-- A row matching two records forces their natural keys to coincide. -/
theorem sameKey_trans (r : FiscalDocument) (d d' : DocRecord)
    (h1 : sameKey r d = true) (h2 : sameKey r d' = true) : natKey d = natKey d' := by
  rw [sameKey_iff] at h1 h2
  rw [natKey_eq_iff]
  exact ⟨h1.1 ▸ h2.1, h1.2 ▸ h2.2⟩

/-- The freshly inserted row matches exactly the records sharing the
inserted record's natural key. -/
theorem sameKey_insertRow (d d' : DocRecord) :
    sameKey (insertRow d) d' = true ↔ natKey d = natKey d' := by
  rw [sameKey_iff, natKey_eq_iff]
  simp [insertRow]

/-- After an upsert the store holds the record's key with the record's
status. -/
theorem hasCurrent_upsert_self (s : List FiscalDocument) (d : DocRecord) :
    hasCurrent (upsert s d).1 d = true := by
  induction s with
  | nil =>
      simp [upsert, hasCurrent, lookupKey, List.find?, insertRow, sameKey]
  | cons row rest ih =>
      by_cases hk : sameKey row d = true
      · by_cases hs : (row.status == d.status) = true
        · simp [upsert, hk, hs, hasCurrent, lookupKey, List.find?]
        · simp only [upsert, hk, if_true, hs, if_false]
          have hk2 : sameKey { row with status := d.status, history := row.history ++ [d.status] } d = true := by
            rw [sameKey_iff] at hk ⊢
            exact hk
          simp [hasCurrent, lookupKey, List.find?, hk2]
      · simp only [upsert, hk, if_false]
        simp only [hasCurrent, lookupKey, List.find?, hk] at ih ⊢
        exact ih

/-- An upsert leaves the row of every other natural key untouched. -/
theorem lookupKey_upsert_other (s : List FiscalDocument) (d d' : DocRecord)
    (hne : natKey d ≠ natKey d') :
    lookupKey (upsert s d).1 d' = lookupKey s d' := by
  induction s with
  | nil =>
      have hni : sameKey (insertRow d) d' ≠ true := fun h =>
        hne ((sameKey_insertRow d d').mp h)
      simp [upsert, lookupKey, List.find?, hni]
  | cons row rest ih =>
      by_cases hk : sameKey row d = true
      · have hk' : sameKey row d' ≠ true := by
          intro h
          exact hne (sameKey_trans row d d' hk h)
        by_cases hs : (row.status == d.status) = true
        · simp [upsert, hk, hs]
        · have hk2 : sameKey { row with status := d.status, history := row.history ++ [d.status] } d' ≠ true := by
            intro h
            apply hk'
            rw [sameKey_iff] at h ⊢
            exact h
          simp [upsert, hk, hs, lookupKey, List.find?, hk', hk2]
      · by_cases hk' : sameKey row d' = true
        · simp [upsert, hk, lookupKey, List.find?, hk']
        · simp only [upsert, hk, if_false]
          simp only [lookupKey, List.find?, hk'] at ih ⊢
          simpa using ih

/-- An upsert of an already-seen record with unchanged status is a no-op
returning unchanged. -/
theorem upsert_seen_unchanged (s : List FiscalDocument) (d : DocRecord)
    (h : hasCurrent s d = true) : upsert s d = (s, .unchanged) := by
  induction s with
  | nil => simp [hasCurrent, lookupKey, List.find?] at h
  | cons row rest ih =>
      by_cases hk : sameKey row d = true
      · have hs : (row.status == d.status) = true := by
          simpa [hasCurrent, lookupKey, List.find?, hk] using h
        simp [upsert, hk, hs]
      · have h2 : hasCurrent rest d = true := by
          simpa [hasCurrent, lookupKey, List.find?, hk] using h
        simp [upsert, hk, ih h2]

/-- Processing a batch whose every record is already seen with unchanged
status leaves the store untouched and emits zero events. -/
theorem processDocs_all_seen (s : List FiscalDocument) (docs : List DocRecord)
    (h : ∀ d ∈ docs, hasCurrent s d = true) : processDocs s docs = (s, []) := by
  induction docs with
  | nil => rfl
  | cons d ds ih =>
      have h1 := upsert_seen_unchanged s d (h d (List.mem_cons_self d ds))
      have h2 := ih (fun d' hd' => h d' (List.mem_cons_of_mem d hd'))
      simp [processDocs, h1, h2, eventsOf]

/-- Processing a batch leaves the row of every natural key outside the
batch untouched. -/
theorem lookupKey_processDocs_other (docs : List DocRecord)
    (s : List FiscalDocument) (d' : DocRecord)
    (h : ∀ d ∈ docs, natKey d ≠ natKey d') :
    lookupKey (processDocs s docs).1 d' = lookupKey s d' := by
  induction docs generalizing s with
  | nil => rfl
  | cons d ds ih =>
      have h1 := lookupKey_upsert_other s d d' (h d (List.mem_cons_self d ds))
      have h2 := ih (upsert s d).1 (fun d2 hd2 => h d2 (List.mem_cons_of_mem d hd2))
      have hred : (processDocs s (d :: ds)).1 = (processDocs (upsert s d).1 ds).1 := by
        cases hu : upsert s d with
        | mk s1 r =>
            cases hp : processDocs s1 ds with
            | mk s2 evs => simp [processDocs, hu, hp]
      rw [hred, h2, h1]

/-- After a first processing of a batch with pairwise-distinct natural
keys, the store holds every record of the batch with its status. -/
theorem hasCurrent_after_processDocs (docs : List DocRecord)
    (s : List FiscalDocument) (hnd : (docs.map natKey).Nodup) :
    ∀ d ∈ docs, hasCurrent (processDocs s docs).1 d = true := by
  induction docs generalizing s with
  | nil => intro d hd; cases hd
  | cons d0 ds ih =>
      intro d hd
      rw [List.map_cons] at hnd
      have hnd0 : natKey d0 ∉ ds.map natKey := (List.nodup_cons.mp hnd).1
      have hndtail : (ds.map natKey).Nodup := (List.nodup_cons.mp hnd).2
      cases hu : upsert s d0 with
      | mk s1 r =>
          have hred : (processDocs s (d0 :: ds)).1 = (processDocs s1 ds).1 := by
            cases hp : processDocs s1 ds with
            | mk s2 evs => simp [processDocs, hu, hp]
          rw [hred]
          rcases List.mem_cons.mp hd with rfl | hd2
          · have hself : hasCurrent s1 d = true := by
              have := hasCurrent_upsert_self s d
              rw [hu] at this
              exact this
            have hother : ∀ d2 ∈ ds, natKey d2 ≠ natKey d := by
              intro d2 hd2 he
              exact hnd0 (he ▸ List.mem_map_of_mem natKey hd2)
            have := lookupKey_processDocs_other ds s1 d hother
            simpa [hasCurrent, this] using hself
          · exact ih s1 hndtail d hd2

/-- C2 (amended): replaying an already-processed batch whose records have
pairwise-distinct natural keys is a no-op: an upsert of an already-seen
document with unchanged status returns unchanged and emits zero events, so
the second processing of the identical batch leaves the store's rows as
they were (no new FiscalDocument row) and enqueues no webhook delivery.
The distinct-keys proviso is necessary: a batch repeating one access key
under two statuses re-emits the status-change events on replay (see the
counterexample below). -/
theorem replay_batch_idempotent (store : List FiscalDocument)
    (docs : List DocRecord) (hnd : (docs.map natKey).Nodup) :
    (∀ s d, hasCurrent s d = true → upsert s d = (s, .unchanged)) ∧
    (∀ d, eventsOf d .unchanged = []) ∧
    processDocs (processDocs store docs).1 docs = ((processDocs store docs).1, []) := by
  refine ⟨upsert_seen_unchanged, fun d => rfl, ?_⟩
  exact processDocs_all_seen _ docs (hasCurrent_after_processDocs docs store hnd)

/-- Witness for the replay theorem at a concrete two-record batch. -/
theorem replay_batch_idempotent_witness :
    processDocs (processDocs [] [{ tenantId := 1, accessKey := "11111111111111111111111111111111111111111111", total := 10, issueDate := 1, status := .authorized }, { tenantId := 1, accessKey := "22222222222222222222222222222222222222222222", total := 20, issueDate := 2, status := .cancelled }]).1 [{ tenantId := 1, accessKey := "11111111111111111111111111111111111111111111", total := 10, issueDate := 1, status := .authorized }, { tenantId := 1, accessKey := "22222222222222222222222222222222222222222222", total := 20, issueDate := 2, status := .cancelled }] = ((processDocs [] [{ tenantId := 1, accessKey := "11111111111111111111111111111111111111111111", total := 10, issueDate := 1, status := .authorized }, { tenantId := 1, accessKey := "22222222222222222222222222222222222222222222", total := 20, issueDate := 2, status := .cancelled }]).1, []) := by
  exact (replay_batch_idempotent [] _ (by decide)).2.2

/-- C2 as frozen is false on batches that repeat one natural key: the pull
of a document item together with its cancellation event (same 44-digit
access key, statuses authorized then cancelled) processes fine the first
time, but replaying the identical raw batch flips the row's status twice
again — the store's history grows, so the store differs from the
first-pass store — and two fresh events (document.new, document.cancelled)
are emitted, so two new webhook deliveries are enqueued: replay is not a
no-op. -/
theorem replay_repeated_key_not_noop :
    (applyBatch
      (applyBatch 100 []
        { items :=
            [{ tenantId := 1, accessKey := "11111111111111111111111111111111111111111111", total := 10, issueDate := 1, status := .authorized },
             { tenantId := 1, accessKey := "11111111111111111111111111111111111111111111", total := 10, issueDate := 1, status := .cancelled }],
          ack := 105 }).cursor
      (applyBatch 100 []
        { items :=
            [{ tenantId := 1, accessKey := "11111111111111111111111111111111111111111111", total := 10, issueDate := 1, status := .authorized },
             { tenantId := 1, accessKey := "11111111111111111111111111111111111111111111", total := 10, issueDate := 1, status := .cancelled }],
          ack := 105 }).store
      { items :=
          [{ tenantId := 1, accessKey := "11111111111111111111111111111111111111111111", total := 10, issueDate := 1, status := .authorized },
           { tenantId := 1, accessKey := "11111111111111111111111111111111111111111111", total := 10, issueDate := 1, status := .cancelled }],
        ack := 105 }).events =
      [{ eventType := .documentNew, tenantId := 1, accessKey := "11111111111111111111111111111111111111111111" },
       { eventType := .documentCancelled, tenantId := 1, accessKey := "11111111111111111111111111111111111111111111" }] ∧
    (applyBatch
      (applyBatch 100 []
        { items :=
            [{ tenantId := 1, accessKey := "11111111111111111111111111111111111111111111", total := 10, issueDate := 1, status := .authorized },
             { tenantId := 1, accessKey := "11111111111111111111111111111111111111111111", total := 10, issueDate := 1, status := .cancelled }],
          ack := 105 }).cursor
      (applyBatch 100 []
        { items :=
            [{ tenantId := 1, accessKey := "11111111111111111111111111111111111111111111", total := 10, issueDate := 1, status := .authorized },
             { tenantId := 1, accessKey := "11111111111111111111111111111111111111111111", total := 10, issueDate := 1, status := .cancelled }],
          ack := 105 }).store
      { items :=
          [{ tenantId := 1, accessKey := "11111111111111111111111111111111111111111111", total := 10, issueDate := 1, status := .authorized },
           { tenantId := 1, accessKey := "11111111111111111111111111111111111111111111", total := 10, issueDate := 1, status := .cancelled }],
        ack := 105 }).store ≠
      (applyBatch 100 []
        { items :=
            [{ tenantId := 1, accessKey := "11111111111111111111111111111111111111111111", total := 10, issueDate := 1, status := .authorized },
             { tenantId := 1, accessKey := "11111111111111111111111111111111111111111111", total := 10, issueDate := 1, status := .cancelled }],
          ack := 105 }).store := by
  constructor
  · rfl
  · decide

end FiscalSpy
